import Mathlib

/-!
Verification of the meal-planner rule engine (`recommendations.py` and the
meal-plan endpoint of `backend/main.py`), shallowly embedded in Lean.

Python `float` arithmetic is modelled by exact rationals (`ℚ`); every
constant appearing in the source (0.25, 1.55, …) denotes exactly the decimal
written there.  `int(x)` is truncation toward zero (`pyInt`), Python 3
`round(x)` is round-half-to-even (`pyRound`), and `str.lower()` is ASCII
lowercasing (`strLower`), matching Python semantics.
-/

set_option maxRecDepth 10000

/-- ASCII lowercase of one character, as Python `str.lower` does for ASCII. -/
def lowerChar (c : Char) : Char :=
  if 65 ≤ c.toNat ∧ c.toNat ≤ 90 then Char.ofNat (c.toNat + 32) else c

/-- Python `s.lower()`. -/
def strLower (s : String) : String :=
  ⟨s.data.map lowerChar⟩

/-- Substring test on character lists: does the list start with `pat`? -/
def charsStartWith : List Char → List Char → Bool
  | [], _ => true
  | _ :: _, [] => false
  | p :: ps, c :: cs => p == c && charsStartWith ps cs

/-- Does `pat` occur as a contiguous sublist of `s`? -/
def charsHasSubstr (pat : List Char) : List Char → Bool
  | [] => pat.isEmpty
  | c :: cs => charsStartWith pat (c :: cs) || charsHasSubstr pat cs

/-- Python's `pat in s` substring containment on strings. -/
def strContains (s pat : String) : Bool :=
  charsHasSubstr pat.data s.data

/-- Python `int(x)`: truncation toward zero (`-⌊-q⌋` is the ceiling, so this
truncates negative values up and nonnegative values down). -/
def pyInt (q : ℚ) : ℤ :=
  if 0 ≤ q then ⌊q⌋ else -⌊-q⌋

/-- Python 3 `round(x)`: round half to even (banker's rounding). -/
def pyRound (q : ℚ) : ℤ :=
  let f := ⌊q⌋
  let r := q - f
  if r < 1/2 then f
  else if 1/2 < r then f + 1
  else if f % 2 = 0 then f else f + 1

/-- Python `round(x, 1)`: one decimal place, half to even. -/
def round1 (q : ℚ) : ℚ :=
  (pyRound (10 * q) : ℚ) / 10

/-- Python `round(x, 2)`: two decimal places, half to even. -/
def round2 (q : ℚ) : ℚ :=
  (pyRound (100 * q) : ℚ) / 100

/-- The user profile dictionary consumed by `MealRecommender`.  A `none`
field models an absent dictionary key. -/
structure UserProfile where
  weight : Option ℚ
  height : Option ℚ
  age : Option ℤ
  gender : Option String
  activity_level : Option String
  goals : Option String
  dietary_preferences : Option String
deriving DecidableEq

/-- Activity multiplier table of `_calculate_daily_calories`. -/
def activity_multipliers : List (String × ℚ) :=
  [("sedentary", 1.2),
   ("lightly_active", 1.375),
   ("moderately_active", 1.55),
   ("very_active", 1.725),
   ("extra_active", 1.9)]

/-- `dict.get(key, default)` on an association list. -/
def lookupD (tbl : List (String × ℚ)) (k : String) (d : ℚ) : ℚ :=
  ((tbl.lookup k).getD d)

/-- Mifflin-St Jeor base of `_calculate_daily_calories` (gender lowercased,
`male` vs anything else). -/
def mifflin_base (w h : ℚ) (a : ℤ) (g : String) : ℚ :=
  if strLower g = "male" then 10 * w + 6.25 * h - 5 * (a : ℚ) + 5
  else 10 * w + 6.25 * h - 5 * (a : ℚ) - 161

/-- Goal adjustment block of `_calculate_daily_calories`: substring match on
the lowercased goal text, weight_loss checked before weight_gain. -/
def goal_adjust (goals : Option String) (daily : ℚ) : ℚ :=
  match goals with
  | some gs =>
    if strContains (strLower gs) "weight_loss" then daily * 0.85
    else if strContains (strLower gs) "weight_gain" then daily * 1.15
    else daily
  | none => daily

/-- `_calculate_daily_calories`: the Mifflin branch is taken only when all
five of weight, height, age, gender, activity_level are present (the source's
`all(k in user_profile for k in [...])` check); otherwise the default 1800 is
returned unmodified. -/
def calculate_daily_calories (p : UserProfile) : ℤ :=
  match p.activity_level, p.gender, p.weight, p.height, p.age with
  | some lvl, some g, some w, some h, some a =>
      pyInt (goal_adjust p.goals (mifflin_base w h a g * lookupD activity_multipliers lvl 1.55))
  | _, _, _, _, _ => 1800

/-- Macro percentage split chosen by `_calculate_macros` from the goal text
(weight_loss, then weight_gain, then muscle_gain, else default). -/
def macro_split (goals : Option String) : ℚ × ℚ × ℚ :=
  match goals with
  | some gs =>
    if strContains (strLower gs) "weight_loss" then (0.30, 0.40, 0.30)
    else if strContains (strLower gs) "weight_gain" then (0.25, 0.55, 0.20)
    else if strContains (strLower gs) "muscle_gain" then (0.35, 0.45, 0.20)
    else (0.25, 0.5, 0.25)
  | none => (0.25, 0.5, 0.25)

/-- Result record of `_calculate_macros`. -/
structure MacroTargets where
  protein_g : ℤ
  carbs_g : ℤ
  fat_g : ℤ
  protein_pct : ℚ
  carbs_pct : ℚ
  fat_pct : ℚ
deriving DecidableEq

/-- `_calculate_macros`: grams via Python `round`, percentages as the chosen
split times 100. -/
def calculate_macros (p : UserProfile) (daily_calories : ℤ) : MacroTargets :=
  let m := macro_split p.goals
  { protein_g := pyRound ((daily_calories : ℚ) * m.1 / 4)
    carbs_g := pyRound ((daily_calories : ℚ) * m.2.1 / 4)
    fat_g := pyRound ((daily_calories : ℚ) * m.2.2 / 9)
    protein_pct := m.1 * 100
    carbs_pct := m.2.1 * 100
    fat_pct := m.2.2 * 100 }

/-- A row of the food-catalog DataFrame, as used by `_generate_day_plan`. -/
structure Food where
  label : String
  calories : ℚ
  protein : ℚ
  carbohydrates : ℚ
  fats : ℚ
  weight : ℚ
deriving DecidableEq

/-- Meat keywords excluded for vegetarian profiles in `_generate_day_plan`. -/
def meat_keywords : List String :=
  ["beef", "chicken", "pork", "turkey", "meat", "fish", "salmon"]

def breakfast_keywords : List String :=
  ["pancakes", "waffles", "french_toast", "eggs", "omelette", "breakfast"]

def lunch_keywords : List String :=
  ["sandwich", "salad", "soup", "wrap", "bowl"]

def dinner_keywords : List String :=
  ["steak", "chicken", "fish", "salmon", "pasta", "rice", "bowl"]

def snack_keywords : List String :=
  ["fruit", "yogurt", "nuts", "hummus", "bar"]

/-- Does the lowercased label match any keyword (the `str.contains` regex
`kw1|kw2|…` of the source, whose keywords are all literals)? -/
def labelMatchesAny (kws : List String) (f : Food) : Bool :=
  kws.any (fun kw => strContains (strLower f.label) kw)

/-- `_filter_by_meal_type`. -/
def filter_by_meal_type (foods : List Food) (meal_type : String) : List Food :=
  if meal_type = "breakfast" then foods.filter (labelMatchesAny breakfast_keywords)
  else if meal_type = "lunch" then foods.filter (labelMatchesAny lunch_keywords)
  else if meal_type = "dinner" then foods.filter (labelMatchesAny dinner_keywords)
  else if meal_type = "snack" then foods.filter (labelMatchesAny snack_keywords)
  else foods

/-- The vegetarian prefilter of `_generate_day_plan`: drop every record whose
lowercased label contains a meat keyword, when the lowercased preference text
contains "vegetarian"; otherwise keep the whole catalog. -/
def preference_filtered (db : List Food) (preferences : String) : List Food :=
  if strContains (strLower preferences) "vegetarian" then
    db.filter (fun f => ! labelMatchesAny meat_keywords f)
  else db

/-- The pool `_generate_day_plan` samples from for one meal type: the
meal-type narrowed pool, or the preference-filtered pool when that is empty. -/
def candidate_pool (db : List Food) (preferences : String) (meal_type : String) : List Food :=
  let filtered := preference_filtered db preferences
  let suitable := filter_by_meal_type filtered meal_type
  if suitable.isEmpty then filtered else suitable

/-- Meal-share table of `_generate_day_plan` (`meal_distribution`). -/
def meal_distribution : List (String × ℚ) :=
  [("breakfast", 0.25), ("lunch", 0.35), ("dinner", 0.30), ("snack", 0.10)]

/-- Meal-share table of the `/meal-plan/generate` endpoint in
`backend/main.py` (the if/elif ladder over meal types). -/
def backend_meal_distribution : List (String × ℚ) :=
  [("breakfast", 0.25), ("lunch", 0.3), ("dinner", 0.3), ("snack", 0.15)]

/-- The per-meal calorie target `int(total_calories * percentage)` of
`_generate_day_plan`. -/
def meal_calorie_target (total_calories : ℤ) (meal_type : String) : ℤ :=
  pyInt ((total_calories : ℚ) * lookupD meal_distribution meal_type 0)

/-- One generated meal entry of `_generate_day_plan`. -/
structure Meal where
  meal_type : String
  name : String
  calories : ℤ
  protein : ℚ
  carbs : ℚ
  fat : ℚ
  servings : ℚ
  serving_size : ℚ
  recipe_link : String
deriving DecidableEq

/-- A generated day plan (meals plus accumulated totals). -/
structure DayPlan where
  meals : List Meal
  totalCalories : ℤ
  totalProtein : ℚ
  totalCarbs : ℚ
  totalFat : ℚ
deriving DecidableEq

/-- `_generate_day_plan`, with the random `DataFrame.sample(1)` modelled by a
selection oracle `pick` (per meal type).  Sampling an empty pool raises in
Python and makes `generate_meal_plan` return `None`; the pool handed to
`pick` is empty only when the preference-filtered catalog itself is empty,
so that case yields `none`. -/
def generate_day_plan (pick : String → List Food → Food) (db : List Food)
    (preferences : String) (total_calories : ℤ) : Option DayPlan :=
  let filtered := preference_filtered db preferences
  if filtered.isEmpty then none
  else
    let meals := meal_distribution.map (fun mp =>
      let meal_calories := pyInt ((total_calories : ℚ) * mp.2)
      let food := pick mp.1 (candidate_pool db preferences mp.1)
      let servings : ℚ := (meal_calories : ℚ) / max food.calories 1
      { meal_type := mp.1
        name := food.label
        calories := pyInt (food.calories * servings)
        protein := round1 (food.protein * servings)
        carbs := round1 (food.carbohydrates * servings)
        fat := round1 (food.fats * servings)
        servings := round2 servings
        serving_size := food.weight
        recipe_link := "https://example.com/recipes/" ++ (strLower food.label).replace " " "-" })
    some
      { meals := meals
        totalCalories := (meals.map (·.calories)).sum
        totalProtein := round1 ((meals.map (·.protein)).sum)
        totalCarbs := round1 ((meals.map (·.carbs)).sum)
        totalFat := round1 ((meals.map (·.fat)).sum) }

/-- Weekday names used by `generate_meal_plan` (Monday-first). -/
def days_of_week : List String :=
  ["monday", "tuesday", "wednesday", "thursday", "friday", "saturday", "sunday"]

/-- Python `dict` insertion on an insertion-ordered association list:
updating an existing key keeps its position, a new key is appended. -/
def dictInsert {α : Type} (k : String) (v : α) : List (String × α) → List (String × α)
  | [] => [(k, v)]
  | (k', v') :: rest => if k' = k then (k, v) :: rest else (k', v') :: dictInsert k v rest

/-- The week-plan loop of `generate_meal_plan`: for `i in range(days)` insert
`days_of_week[i % 7] ↦ plan` into an (insertion-ordered) dict.  The day plan
produced by the `i`-th `_generate_day_plan` call is abstracted as `plans i`
(its value does not influence the keys). -/
def generate_meal_plan {α : Type} (plans : Nat → α) (days : Nat) : List (String × α) :=
  (List.range days).foldl (fun acc i => dictInsert (days_of_week.getD (i % 7) "") (plans i) acc) []

/-- One food-log record as read by `get_nutrition_insights` (`logged_date`
models `log.logged_at.date()` as an abstract day number). -/
structure FoodLogE where
  calories : ℚ
  protein : ℚ
  carbs : ℚ
  fat : ℚ
  fiber : Option ℚ
  sugar : Option ℚ
  logged_date : ℤ
deriving DecidableEq

/-- One insight dictionary appended by `get_nutrition_insights`. -/
structure Insight where
  category : String
  message : String
  recommendation : String
  priority : String
deriving DecidableEq

/-- Return value of `get_nutrition_insights`: the not-enough-data dictionary
(message plus empty insight list) or the full report dictionary. -/
inductive InsightsResult where
  | noData (message : String)
  | report (protein_percentage carbs_percentage fat_percentage : ℚ)
      (avg_calories avg_protein avg_carbs avg_fat avg_fiber avg_sugar : ℚ)
      (insights : List Insight) (food_recommendations : List String)
deriving DecidableEq

/-- The `insights` list carried by either result shape (the not-enough-data
dictionary has `"insights": []`). -/
def InsightsResult.insightsOf : InsightsResult → List Insight
  | .noData _ => []
  | .report _ _ _ _ _ _ _ _ _ ins _ => ins

/-- The `food_recommendations` list (absent, hence empty, in the
not-enough-data dictionary). -/
def InsightsResult.recsOf : InsightsResult → List String
  | .noData _ => []
  | .report _ _ _ _ _ _ _ _ _ _ recs => recs

/-- `_generate_food_recommendations`: category-driven suggestion lists.  The
direction checks scan the raw (not lowercased) insight messages for the
literal substrings "carbs"/"fat" and "high", exactly as the source does. -/
def generate_food_recommendations (insights : List Insight) (user_profile : UserProfile) :
    List String :=
  let categories_to_improve :=
    (insights.filter (fun i => i.priority == "high" || i.priority == "medium")).map (·.category)
  let recommendations :=
    (if categories_to_improve.contains "protein" then
      if strContains (strLower (user_profile.dietary_preferences.getD "")) "vegetarian" then
        ["Greek yogurt (high protein dairy)",
         "Lentils (plant-based protein)",
         "Tofu (complete plant protein)",
         "Chickpeas (protein and fiber)",
         "Quinoa (complete protein grain)"]
      else
        ["Chicken breast (lean protein)",
         "Greek yogurt (high protein dairy)",
         "Eggs (complete protein)",
         "Tuna (lean protein source)",
         "Turkey (lean meat protein)"]
    else []) ++
    (if categories_to_improve.contains "carbs" then
      if insights.any (fun i => strContains i.message "carbs" && strContains i.message "high") then
        ["Replace refined grains with vegetables",
         "Choose lower-carb fruits like berries",
         "Include more leafy greens"]
      else
        ["Oatmeal (complex carbs with fiber)",
         "Sweet potatoes (nutrient-dense carb source)",
         "Brown rice (whole grain carb source)",
         "Bananas (carbs with potassium)",
         "Whole grain bread (complex carbs)"]
    else []) ++
    (if categories_to_improve.contains "fat" then
      if insights.any (fun i => strContains i.message "fat" && strContains i.message "high") then
        ["Choose lean protein sources",
         "Use olive oil instead of butter",
         "Include fatty fish like salmon"]
      else
        ["Avocados (healthy monounsaturated fats)",
         "Nuts (healthy fats and protein)",
         "Olive oil (healthy cooking oil)",
         "Chia seeds (omega-3 fatty acids)",
         "Fatty fish like salmon (omega-3 sources)"]
    else []) ++
    (if categories_to_improve.contains "fiber" then
      ["Chia seeds (high in soluble fiber)",
       "Berries (fruit with high fiber)",
       "Lentils (protein and fiber)",
       "Broccoli (vegetable with fiber)",
       "Oats (whole grain with beta-glucan fiber)"]
    else []) ++
    (if categories_to_improve.contains "sugar" then
      ["Replace sugary drinks with water or herbal tea",
       "Choose whole fruits instead of fruit juices",
       "Read labels for hidden added sugars",
       "Try cinnamon as a natural sweetener",
       "Gradually reduce sugar in coffee/tea"]
    else [])
  let recommendations :=
    if recommendations.isEmpty then
      ["Eat a variety of colorful fruits and vegetables",
       "Choose whole grains over refined grains",
       "Include lean proteins in your meals",
       "Stay hydrated by drinking water throughout the day",
       "Limit highly processed foods and added sugars"]
    else recommendations
  recommendations.take 10

/-- The threshold-rule chain of `get_nutrition_insights` (protein, carbs,
fat, fiber, sugar, then the profile-gated calorie comparison), producing the
`insights` list in source order. -/
def build_insights (protein_pct carbs_pct fat_pct avg_fiber avg_sugar avg_calories : ℚ)
    (user_profile : UserProfile) : List Insight :=
      (if protein_pct < 10 then
        [Insight.mk "protein"
          "Your protein intake is very low. Protein is essential for muscle maintenance and recovery."
          "Try to include more lean protein sources like chicken, fish, tofu, or legumes."
          "high"]
      else if protein_pct < 15 then
        [Insight.mk "protein"
          "Your protein intake could be higher for optimal health."
          "Consider adding more protein-rich foods to your meals."
          "medium"]
      else if 35 < protein_pct then
        [Insight.mk "protein"
          "Your protein intake is quite high. While protein is important, balance is key."
          "Consider diversifying your diet with more fruits, vegetables, and whole grains."
          "medium"]
      else []) ++
      (if carbs_pct < 30 then
        [Insight.mk "carbs"
          "Your carbohydrate intake is low. Carbs are your body\x27s main energy source."
          "Include more complex carbohydrates like whole grains, fruits, and vegetables."
          "medium"]
      else if 65 < carbs_pct then
        [Insight.mk "carbs"
          "Your diet is very high in carbohydrates."
          "Try to balance your meals with more protein and healthy fats."
          "medium"]
      else []) ++
      (if fat_pct < 15 then
        [Insight.mk "fat"
          "Your fat intake is low. Healthy fats are essential for hormone production and nutrient absorption."
          "Include sources of healthy fats like avocados, nuts, seeds, and olive oil."
          "medium"]
      else if 40 < fat_pct then
        [Insight.mk "fat"
          "Your fat intake is high. While healthy fats are important, they\x27re also calorie-dense."
          "Focus on healthy fat sources and consider moderating overall fat intake."
          "medium"]
      else []) ++
      (if avg_fiber < 25 then
        [Insight.mk "fiber"
          "Your fiber intake appears to be below recommendations. Fiber is important for digestive health."
          "Add more fruits, vegetables, legumes, and whole grains to increase your fiber intake."
          "medium"]
      else []) ++
      (if 50 < avg_sugar then
        [Insight.mk "sugar"
          "Your sugar intake appears to be high. Excessive sugar consumption is linked to various health issues."
          "Try to reduce added sugars in your diet by limiting sweetened beverages and processed foods."
          "high"]
      else []) ++
      (match user_profile.weight, user_profile.height, user_profile.age, user_profile.gender with
       | some _, some _, some _, some _ =>
         let estimated_calories := calculate_daily_calories user_profile
         if avg_calories < (estimated_calories : ℚ) * 0.7 then
           [Insight.mk "calories"
             ("Your average calorie intake (" ++ toString (pyInt avg_calories) ++
              ") is much lower than your estimated needs (" ++ toString estimated_calories ++ ").")
             "Consider eating more nutrient-dense foods to meet your energy requirements."
             "high"]
         else if (estimated_calories : ℚ) * 1.3 < avg_calories then
           [Insight.mk "calories"
             ("Your average calorie intake (" ++ toString (pyInt avg_calories) ++
              ") is higher than your estimated needs (" ++ toString estimated_calories ++ ").")
             "Consider monitoring portion sizes if weight maintenance is your goal."
             "medium"]
         else []
       | _, _, _, _ => [])

/-- `get_nutrition_insights` of `recommendations.py`. -/
def get_nutrition_insights (user_food_logs : List FoodLogE) (user_profile : UserProfile) :
    InsightsResult :=
  if user_food_logs.isEmpty then
    .noData "Not enough data for insights. Log more meals for personalized nutrition insights."
  else
    let total_calories := (user_food_logs.map (·.calories)).sum
    let total_protein := (user_food_logs.map (·.protein)).sum
    let total_carbs := (user_food_logs.map (·.carbs)).sum
    let total_fat := (user_food_logs.map (·.fat)).sum
    let total_fiber := (user_food_logs.map (fun l => l.fiber.getD 0)).sum
    let total_sugar := (user_food_logs.map (fun l => l.sugar.getD 0)).sum
    let days : ℕ := max 1 ((user_food_logs.map (·.logged_date)).dedup.length)
    let avg_calories := total_calories / (days : ℚ)
    let avg_protein := total_protein / (days : ℚ)
    let avg_carbs := total_carbs / (days : ℚ)
    let avg_fat := total_fat / (days : ℚ)
    let avg_fiber := total_fiber / (days : ℚ)
    let avg_sugar := total_sugar / (days : ℚ)
    let calories_from_protein := total_protein * 4
    let calories_from_carbs := total_carbs * 4
    let calories_from_fat := total_fat * 9
    let total_calorie_sum := calories_from_protein + calories_from_carbs + calories_from_fat
    let protein_pct := if 0 < total_calorie_sum then calories_from_protein / total_calorie_sum * 100 else 0
    let carbs_pct := if 0 < total_calorie_sum then calories_from_carbs / total_calorie_sum * 100 else 0
    let fat_pct := if 0 < total_calorie_sum then calories_from_fat / total_calorie_sum * 100 else 0
    let insights := build_insights protein_pct carbs_pct fat_pct avg_fiber avg_sugar
      avg_calories user_profile
    .report (round1 protein_pct) (round1 carbs_pct) (round1 fat_pct)
      (round1 avg_calories) (round1 avg_protein) (round1 avg_carbs) (round1 avg_fat)
      (round1 avg_fiber) (round1 avg_sugar)
      insights
      (generate_food_recommendations insights user_profile)

/-! ### Helper lemmas -/

theorem headD_mem {α : Type} (l : List α) (d : α) (h : l ≠ []) : l.headD d ∈ l := by
  cases l with
  | nil => exact absurd rfl h
  | cons x xs => simp [List.headD]

theorem pyInt_mono {x y : ℚ} (h : x ≤ y) : pyInt x ≤ pyInt y := by
  unfold pyInt
  split_ifs with hx hy hy
  · exact Int.floor_le_floor h
  · exact absurd (le_trans hx h) hy
  · have h1 : (0 : ℤ) ≤ ⌊-x⌋ := Int.floor_nonneg.mpr (by linarith)
    have h2 : (0 : ℤ) ≤ ⌊y⌋ := Int.floor_nonneg.mpr hy
    omega
  · have : ⌊-y⌋ ≤ ⌊-x⌋ := Int.floor_le_floor (by linarith)
    omega

theorem pyRound_sub_abs_le (q : ℚ) : |(pyRound q : ℚ) - q| ≤ 1 / 2 := by
  unfold pyRound
  dsimp only
  have h0 : (⌊q⌋ : ℚ) ≤ q := Int.floor_le q
  have h1 : q < ⌊q⌋ + 1 := Int.lt_floor_add_one q
  split_ifs with ha hb hc <;> rw [abs_le] <;> constructor <;> push_cast <;> linarith

theorem macro_split_sum (goals : Option String) :
    (macro_split goals).1 + (macro_split goals).2.1 + (macro_split goals).2.2 = 1 := by
  cases goals with
  | none => norm_num [macro_split]
  | some gs =>
    dsimp only [macro_split]
    split_ifs <;> norm_num

theorem goal_adjust_mono (goals : Option String) {x y : ℚ} (h : x ≤ y) :
    goal_adjust goals x ≤ goal_adjust goals y := by
  cases goals with
  | none => exact h
  | some gs =>
    dsimp only [goal_adjust]
    split_ifs <;> first
      | exact mul_le_mul_of_nonneg_right h (by norm_num)
      | exact h

theorem map_fst_dictInsert_mem {α : Type} (k : String) (v : α) (l : List (String × α))
    (h : k ∈ l.map Prod.fst) : (dictInsert k v l).map Prod.fst = l.map Prod.fst := by
  induction l with
  | nil => simp at h
  | cons hd tl ih =>
    by_cases hk : hd.1 = k
    · simp [dictInsert, hk]
    · have hmem : k ∈ tl.map Prod.fst := by
        simp only [List.map_cons, List.mem_cons] at h
        rcases h with h | h
        · exact absurd h.symm hk
        · exact h
      simp [dictInsert, hk, ih hmem]

theorem map_fst_dictInsert_not_mem {α : Type} (k : String) (v : α) (l : List (String × α))
    (h : k ∉ l.map Prod.fst) : (dictInsert k v l).map Prod.fst = l.map Prod.fst ++ [k] := by
  induction l with
  | nil => simp [dictInsert]
  | cons hd tl ih =>
    have hk : ¬ hd.1 = k := fun hc => h (by simp [hc])
    have htl : k ∉ tl.map Prod.fst := fun hc => h (by simp [hc])
    simp [dictInsert, hk, ih htl]

theorem filter_by_meal_type_subset (foods : List Food) (mt : String) (f : Food)
    (h : f ∈ filter_by_meal_type foods mt) : f ∈ foods := by
  unfold filter_by_meal_type at h
  split_ifs at h <;> first
    | exact (List.mem_filter.mp h).1
    | exact h

/-- The five activity levels in the spec's intended order. -/
def activity_levels : List String :=
  ["sedentary", "lightly_active", "moderately_active", "very_active", "extra_active"]

/-- The `i`-th activity level. -/
def activityOfIdx (i : Fin 5) : String := activity_levels.getD i ""

theorem activity_multiplier_mono (i j : Fin 5) (hij : i ≤ j) :
    lookupD activity_multipliers (activityOfIdx i) 1.55 ≤
      lookupD activity_multipliers (activityOfIdx j) 1.55 := by
  fin_cases i <;> fin_cases j <;>
    first
      | exact absurd hij (by decide)
      | (simp [activityOfIdx, activity_levels, lookupD, activity_multipliers, List.lookup]
         try norm_num)

/-- The profile with no fields set. -/
def empty_profile : UserProfile := ⟨none, none, none, none, none, none, none⟩

/-- The example profile of the spec's §8: weight 70, height 175, age 30,
male, moderately active, empty goal text. -/
def example_profile : UserProfile :=
  ⟨some 70, some 175, some 30, some "male", some "moderately_active", some "", none⟩

/-! ### Claims -/

/-- C1, counterexample: requesting an 8-day horizon returns a mapping with
only 7 entries (the dict key `monday` is overwritten on day 8), so
`assemble_week_plan` does not return exactly `days` DayPlans for every
`days ≥ 1`. -/
theorem c1_week_plan_count_cex :
    ¬ ((generate_meal_plan (fun _ => ()) 8).length = 8) := by
  decide

/-- C1, amended: the generated plan's keys are the first `min days 7`
weekday names, Monday-first and in order; in particular 7 days yields
monday…sunday, 3 days yields monday, tuesday, wednesday, and any horizon
beyond 7 days collapses onto the 7 weekday keys (later cycles overwrite
earlier ones). -/
theorem c1_week_plan_labels {α : Type} (plans : Nat → α) (days : ℕ) :
    (generate_meal_plan plans days).map Prod.fst = days_of_week.take (min days 7) := by
  induction days with
  | zero => rfl
  | succ n ih =>
    have hstep : generate_meal_plan plans (n + 1) =
        dictInsert (days_of_week.getD (n % 7) "") (plans n) (generate_meal_plan plans n) := by
      unfold generate_meal_plan
      rw [List.range_succ, List.foldl_append]
      rfl
    rw [hstep]
    by_cases hn : n < 7
    · rw [Nat.mod_eq_of_lt hn]
      have hmin : min n 7 = n := by omega
      have hmin1 : min (n + 1) 7 = n + 1 := by omega
      have hnotmem : days_of_week.getD n "" ∉ days_of_week.take n := by
        have hfact : ∀ m, m < 7 → days_of_week.getD m "" ∉ days_of_week.take m := by decide
        exact hfact n hn
      have htake : days_of_week.take (n + 1) =
          days_of_week.take n ++ [days_of_week.getD n ""] := by
        have hfact : ∀ m, m < 7 →
            days_of_week.take (m + 1) = days_of_week.take m ++ [days_of_week.getD m ""] := by
          decide
        exact hfact n hn
      rw [map_fst_dictInsert_not_mem _ _ _ (by rw [ih, hmin]; exact hnotmem), ih, hmin, hmin1,
        htake]
    · have hn7 : 7 ≤ n := by omega
      have hmin : min n 7 = 7 := by omega
      have hmin1 : min (n + 1) 7 = 7 := by omega
      have hmem : days_of_week.getD (n % 7) "" ∈ days_of_week.take 7 := by
        have hfact : ∀ m, m < 7 → days_of_week.getD m "" ∈ days_of_week.take 7 := by decide
        exact hfact _ (Nat.mod_lt _ (by norm_num))
      rw [map_fst_dictInsert_mem _ _ _ (by rw [ih, hmin]; exact hmem), ih, hmin, hmin1]

/-- C3: for every profile (any goal text) and every calorie total, the
percentages returned by `_calculate_macros` sum to exactly 100, because they
are the chosen split times 100. -/
theorem c3_macro_percentages_sum (p : UserProfile) (daily : ℤ) :
    (calculate_macros p daily).protein_pct + (calculate_macros p daily).carbs_pct +
      (calculate_macros p daily).fat_pct = 100 := by
  have h := macro_split_sum p.goals
  simp only [calculate_macros]
  linarith

/-- C4, counterexample: a profile carrying weight, height, age and gender
but no activity level gets the flat default 1800, not the claimed Mifflin
base times 1.55 (the source requires all five keys, activity_level
included, before using Mifflin-St Jeor). -/
theorem c4_missing_activity_cex :
    calculate_daily_calories ⟨some 70, some 175, some 30, some "male", none, none, none⟩ = 1800 ∧
      (1800 : ℤ) ≠ 2660 := by
  exact ⟨rfl, by decide⟩

/-- C4, amended: the Mifflin branch requires all five of weight, height,
age, gender and activity_level; whenever activity_level or gender is
absent, the function returns the bare default 1800 with no activity factor
and no goal adjustment applied. -/
theorem c4_default_base_no_factor (p : UserProfile) :
    (p.activity_level = none → calculate_daily_calories p = 1800) ∧
      (p.gender = none → calculate_daily_calories p = 1800) := by
  obtain ⟨w, h, a, g, lvl, gs, dp⟩ := p
  constructor
  · intro hl
    subst hl
    rfl
  · intro hg
    subst hg
    cases lvl <;> rfl

/-- C4 witness: the amended theorem applied to two concrete profiles. -/
theorem c4_default_base_no_factor_witness :
    calculate_daily_calories ⟨some 70, some 175, some 30, some "male", none, none, none⟩ = 1800 ∧
      calculate_daily_calories ⟨some 70, some 175, some 30, none, some "sedentary", none, none⟩ =
        1800 :=
  ⟨(c4_default_base_no_factor _).1 rfl, (c4_default_base_no_factor _).2 rfl⟩

/-- C5, counterexample: the lunch share in `_generate_day_plan` is 0.35, so
at a daily target of 2000 kcal the lunch meal target is 700, not the 600
the claimed share table {lunch: 0.30} would give. -/
theorem c5_lunch_share_cex :
    meal_calorie_target 2000 "lunch" = 700 ∧ (700 : ℤ) ≠ 600 := by
  constructor
  · simp [meal_calorie_target, lookupD, meal_distribution, List.lookup]
    norm_num [pyInt]
  · decide

/-- C5, amended: `_generate_day_plan` assigns, in the fixed order breakfast,
lunch, dinner, snack, the per-meal targets `int(total × share)` with share
table {breakfast: 0.25, lunch: 0.35, dinner: 0.30, snack: 0.10}, which sums
to 1.00; the separate simplified endpoint in `backend/main.py` uses
{0.25, 0.30, 0.30, 0.15}, which also sums to 1.00. -/
theorem c5_meal_share_table :
    (∀ total : ℤ,
      meal_distribution.map (fun mp => (mp.1, pyInt ((total : ℚ) * mp.2))) =
        [("breakfast", pyInt ((total : ℚ) * (1 / 4))), ("lunch", pyInt ((total : ℚ) * (7 / 20))),
         ("dinner", pyInt ((total : ℚ) * (3 / 10))), ("snack", pyInt ((total : ℚ) * (1 / 10)))]) ∧
      (meal_distribution.map Prod.snd).sum = 1 ∧
      (backend_meal_distribution.map Prod.snd).sum = 1 := by
  refine ⟨fun total => ?_, ?_, ?_⟩ <;> simp [meal_distribution, backend_meal_distribution] <;>
    norm_num

/-- C6, counterexample: the spec's example profile yields
`int((10·70 + 6.25·175 − 5·30 + 5) · 1.55) = int(1648.75 · 1.55) = 2555`
kilocalories, not the claimed 2660 (the claim's base 1716.75 is a slip for
1648.75). -/
theorem c6_example_calories_cex :
    calculate_daily_calories example_profile = 2555 ∧ (2555 : ℤ) ≠ 2660 := by
  have hg : strLower "male" = "male" := by decide
  have h1 : strContains (strLower "") "weight_loss" = false := by decide
  have h2 : strContains (strLower "") "weight_gain" = false := by decide
  constructor
  · simp [example_profile, calculate_daily_calories, goal_adjust, mifflin_base, lookupD,
      activity_multipliers, List.lookup, hg, h1, h2]
    norm_num [pyInt]
  · decide

/-- C6, amended: the example profile gets base 1648.75, times 1.55 and
truncated to 2555 kcal, and the default split on 2555 kcal gives
protein_g = round(159.6875) = 160, carbs_g = round(319.375) = 319 and
fat_g = round(70.972…) = 71. -/
theorem c6_example_numbers :
    calculate_daily_calories example_profile = 2555 ∧
      (calculate_macros example_profile 2555).protein_g = 160 ∧
      (calculate_macros example_profile 2555).carbs_g = 319 ∧
      (calculate_macros example_profile 2555).fat_g = 71 := by
  have hg : strLower "male" = "male" := by decide
  have h1 : strContains (strLower "") "weight_loss" = false := by decide
  have h2 : strContains (strLower "") "weight_gain" = false := by decide
  have h3 : strContains (strLower "") "muscle_gain" = false := by decide
  refine ⟨?_, ?_, ?_, ?_⟩
  · simp [example_profile, calculate_daily_calories, goal_adjust, mifflin_base, lookupD,
      activity_multipliers, List.lookup, hg, h1, h2]
    norm_num [pyInt]
  all_goals
    norm_num [example_profile, calculate_macros, macro_split, pyRound, h1, h2, h3]

/-- C8, counterexample: with the weight_gain split and C = 160 the gram
targets reconstruct 4·10 + 4·22 + 9·4 = 164 kcal, which misses C by 4 kcal,
outside the claimed ±3 tolerance. -/
theorem c8_tolerance_cex :
    (4 * (calculate_macros ⟨none, none, none, none, none, some "weight_gain", none⟩ 160).protein_g +
      4 * (calculate_macros ⟨none, none, none, none, none, some "weight_gain", none⟩ 160).carbs_g +
      9 * (calculate_macros ⟨none, none, none, none, none, some "weight_gain", none⟩ 160).fat_g
      = 164) ∧
      ¬ (|(164 : ℚ) - 160| ≤ 3) := by
  have h1 : strContains (strLower "weight_gain") "weight_loss" = false := by decide
  have h2 : strContains (strLower "weight_gain") "weight_gain" = true := by decide
  constructor
  · norm_num [calculate_macros, macro_split, pyRound, h1, h2]
  · norm_num

/-- C8, amended: for every profile and every calorie total C > 0 the gram
targets reconstruct C within ±8.5 kcal (each of the three Python roundings
moves at most half a gram, worth 2 + 2 + 4.5 kcal). -/
theorem c8_reconstruction_bound (p : UserProfile) (C : ℤ) (hC : 0 < C) :
    |((4 * (calculate_macros p C).protein_g + 4 * (calculate_macros p C).carbs_g +
        9 * (calculate_macros p C).fat_g : ℤ) : ℚ) - (C : ℚ)| ≤ 17 / 2 := by
  have hsum := macro_split_sum p.goals
  simp only [calculate_macros]
  have h1 := pyRound_sub_abs_le ((C : ℚ) * (macro_split p.goals).1 / 4)
  have h2 := pyRound_sub_abs_le ((C : ℚ) * (macro_split p.goals).2.1 / 4)
  have h3 := pyRound_sub_abs_le ((C : ℚ) * (macro_split p.goals).2.2 / 9)
  have hx : 4 * ((C : ℚ) * (macro_split p.goals).1 / 4) +
      4 * ((C : ℚ) * (macro_split p.goals).2.1 / 4) +
      9 * ((C : ℚ) * (macro_split p.goals).2.2 / 9) = (C : ℚ) := by
    have : 4 * ((C : ℚ) * (macro_split p.goals).1 / 4) +
        4 * ((C : ℚ) * (macro_split p.goals).2.1 / 4) +
        9 * ((C : ℚ) * (macro_split p.goals).2.2 / 9) =
        (C : ℚ) * ((macro_split p.goals).1 + (macro_split p.goals).2.1 +
          (macro_split p.goals).2.2) := by ring
    rw [this, hsum, mul_one]
  rw [abs_le] at h1 h2 h3 ⊢
  push_cast
  constructor <;> linarith

/-- C8 witness: the amended bound at the empty profile and C = 100. -/
theorem c8_reconstruction_bound_witness :
    (0 : ℤ) < 100 ∧
      |((4 * (calculate_macros empty_profile 100).protein_g +
          4 * (calculate_macros empty_profile 100).carbs_g +
          9 * (calculate_macros empty_profile 100).fat_g : ℤ) : ℚ) - (100 : ℚ)| ≤ 17 / 2 :=
  ⟨by decide, c8_reconstruction_bound empty_profile 100 (by decide)⟩

/-- C9, counterexample: with weight 1, height 1, age 100 (all positive) the
Mifflin base is −478.75, and truncation toward zero makes the estimate
increase as the activity multiplier grows in magnitude: sedentary gives
−574 but lightly_active gives −658, so the estimate is not non-decreasing
in the activity ordering for all positive inputs. -/
theorem c9_negative_base_cex :
    calculate_daily_calories ⟨some 1, some 1, some 100, some "male", some "sedentary", none, none⟩
        = -574 ∧
      calculate_daily_calories
        ⟨some 1, some 1, some 100, some "male", some "lightly_active", none, none⟩ = -658 ∧
      ¬ (calculate_daily_calories
          ⟨some 1, some 1, some 100, some "male", some "sedentary", none, none⟩ ≤
        calculate_daily_calories
          ⟨some 1, some 1, some 100, some "male", some "lightly_active", none, none⟩) := by
  have hg : strLower "male" = "male" := by decide
  have e1 : calculate_daily_calories
      ⟨some 1, some 1, some 100, some "male", some "sedentary", none, none⟩ = -574 := by
    simp [calculate_daily_calories, goal_adjust, mifflin_base, lookupD, activity_multipliers,
      List.lookup, hg]
    norm_num [pyInt]
  have e2 : calculate_daily_calories
      ⟨some 1, some 1, some 100, some "male", some "lightly_active", none, none⟩ = -658 := by
    simp [calculate_daily_calories, goal_adjust, mifflin_base, lookupD, activity_multipliers,
      List.lookup, hg]
    norm_num [pyInt]
  exact ⟨e1, e2, by rw [e1, e2]; decide⟩

/-- C9, amended: holding weight, height, age, gender and goal fixed, the
estimate is monotonically non-decreasing along the activity ordering
provided the Mifflin base is nonnegative (which holds for all realistic
positive profiles; truncation and the positive goal factors preserve the
order). -/
theorem c9_activity_monotone (w h : ℚ) (a : ℤ) (g : String) (goals prefs : Option String)
    (i j : Fin 5) (hbase : 0 ≤ mifflin_base w h a g) (hij : i ≤ j) :
    calculate_daily_calories ⟨some w, some h, some a, some g, some (activityOfIdx i), goals, prefs⟩ ≤
      calculate_daily_calories
        ⟨some w, some h, some a, some g, some (activityOfIdx j), goals, prefs⟩ := by
  have hm := activity_multiplier_mono i j hij
  simp only [calculate_daily_calories]
  exact pyInt_mono (goal_adjust_mono goals (mul_le_mul_of_nonneg_left hm hbase))

/-- C2, counterexample: `get_nutrition_insights` on an empty log list
returns only the not-enough-data message with an empty insight list, not
the claimed two-insight (general + hydration) minimal report. -/
theorem c2_empty_logs_cex :
    get_nutrition_insights [] empty_profile =
        .noData "Not enough data for insights. Log more meals for personalized nutrition insights." ∧
      ¬ ((get_nutrition_insights [] empty_profile).insightsOf.length = 2) :=
  ⟨rfl, by decide⟩

/-- C2, amended: for every profile, `analyze_logs([])` returns the minimal
dictionary carrying only a not-enough-data message and an empty insights
list — no general/hydration insights, no percentages, no averages and no
recommendation list. -/
theorem c2_empty_logs_message (p : UserProfile) :
    get_nutrition_insights [] p =
      .noData "Not enough data for insights. Log more meals for personalized nutrition insights." :=
  rfl

/-- C7: for every catalog, every vegetarian preference text, every meal
type and every selection the sampler can make from the pool
`_generate_day_plan` actually samples (the meal-type narrowed pool, or the
preference-filtered pool after the empty fallback), the selected meal name
never contains a meat keyword, case-insensitively. -/
theorem c7_vegetarian_invariant (pick : String → List Food → Food) (db : List Food)
    (preferences : String) (total : ℤ) (plan : DayPlan) (m : Meal) (kw : String)
    (hpick : ∀ mt l, l ≠ [] → pick mt l ∈ l)
    (hveg : strContains (strLower preferences) "vegetarian" = true)
    (hplan : generate_day_plan pick db preferences total = some plan)
    (hm : m ∈ plan.meals) (hkw : kw ∈ meat_keywords) :
    strContains (strLower m.name) kw = false := by
  have key : ∀ food ∈ preference_filtered db preferences,
      strContains (strLower food.label) kw = false := by
    intro food hf
    unfold preference_filtered at hf
    rw [if_pos hveg] at hf
    have h3 : labelMatchesAny meat_keywords food = false := by
      simpa using (List.mem_filter.mp hf).2
    cases hval : strContains (strLower food.label) kw with
    | false => rfl
    | true =>
      have h4 : labelMatchesAny meat_keywords food = true := by
        unfold labelMatchesAny
        exact List.any_eq_true.mpr ⟨kw, hkw, hval⟩
      rw [h3] at h4
      exact absurd h4 (by simp)
  unfold generate_day_plan at hplan
  dsimp only at hplan
  by_cases hemp : (preference_filtered db preferences).isEmpty
  · rw [if_pos hemp] at hplan
    exact absurd hplan (by simp)
  · rw [if_neg hemp] at hplan
    have hfilne : preference_filtered db preferences ≠ [] := by
      intro hnil
      rw [hnil] at hemp
      exact hemp rfl
    injection hplan with hpl
    subst hpl
    dsimp only at hm
    rcases List.mem_map.mp hm with ⟨mp, hmp, hfm⟩
    rw [← hfm]
    dsimp only
    have hpoolmem : pick mp.1 (candidate_pool db preferences mp.1) ∈
        preference_filtered db preferences := by
      unfold candidate_pool
      dsimp only
      by_cases hsuit : (filter_by_meal_type (preference_filtered db preferences) mp.1).isEmpty
      · rw [if_pos hsuit]
        exact hpick _ _ hfilne
      · rw [if_neg hsuit]
        have hsne : filter_by_meal_type (preference_filtered db preferences) mp.1 ≠ [] := by
          intro hnil
          rw [hnil] at hsuit
          exact hsuit rfl
        exact filter_by_meal_type_subset _ _ _ (hpick _ _ hsne)
    exact key _ hpoolmem

/-- A deterministic sampler (first element of the pool), standing in for
`DataFrame.sample(1)` in concrete runs. -/
def pickHead (mt : String) (l : List Food) : Food :=
  l.headD ⟨"", 0, 0, 0, 0, 0⟩

/-- A two-item demo catalog: one meat dish, one vegetarian dish. -/
def demo_db : List Food :=
  [⟨"Chicken Salad", 300, 20, 10, 10, 100⟩, ⟨"Tofu Bowl", 250, 15, 30, 8, 200⟩]

def default_meal : Meal := ⟨"", "", 0, 0, 0, 0, 0, 0, ""⟩

def default_day_plan : DayPlan := ⟨[], 0, 0, 0, 0⟩

/-- C7 witness: with a vegetarian profile over the demo catalog, the first
generated meal's name ("Tofu Bowl") does not contain "chicken". -/
theorem c7_vegetarian_invariant_witness :
    strContains (strLower
      ((((generate_day_plan pickHead demo_db "Vegetarian" 2000).getD default_day_plan).meals.headD
        default_meal).name)) "chicken" = false :=
  c7_vegetarian_invariant pickHead demo_db "Vegetarian" 2000
    ((generate_day_plan pickHead demo_db "Vegetarian" 2000).getD default_day_plan)
    ((((generate_day_plan pickHead demo_db "Vegetarian" 2000).getD default_day_plan)).meals.headD
      default_meal)
    "chicken"
    (fun _ l h => headD_mem l _ h)
    (by decide)
    rfl
    (headD_mem _ default_meal (by decide))
    (by decide)

/-- The failing food log for C10: one day totalling 960 kcal with 15 g
protein (6.25 %), 180 g carbs (75 %, firing the carbs-too-high rule) and
20 g fat (18.75 %), fiber and sugar within bounds. -/
def c10_log : FoodLogE := ⟨960, 15, 180, 20, some 30, some 10, 0⟩

/-- C10: at the failing input the carbs-too-high rule fires (75 % > 65 %),
yet the emitted carbs suggestions are the carb-increasing list (e.g.
Oatmeal) and not the carb-reducing list: the direction check scans insight
messages for the literal substring "carbs", which no message contains (the
fired message says "carbohydrates"), so the reducing branch is dead code. -/
theorem c10_carbs_direction_bug :
    (Insight.mk "carbs" "Your diet is very high in carbohydrates."
        "Try to balance your meals with more protein and healthy fats." "medium")
      ∈ (get_nutrition_insights [c10_log] empty_profile).insightsOf ∧
      "Oatmeal (complex carbs with fiber)" ∈
        (get_nutrition_insights [c10_log] empty_profile).recsOf ∧
      "Replace refined grains with vegetables" ∉
        (get_nutrition_insights [c10_log] empty_profile).recsOf := by
  have s0 : strContains (strLower "") "vegetarian" = false := by decide
  have s1 : strContains
      "Your protein intake is very low. Protein is essential for muscle maintenance and recovery."
      "carbs" = false := by decide
  have s2 : strContains "Your diet is very high in carbohydrates." "carbs" = false := by decide
  refine ⟨?_, ?_, ?_⟩ <;>
    norm_num [get_nutrition_insights, build_insights, generate_food_recommendations, c10_log,
      empty_profile, InsightsResult.insightsOf, InsightsResult.recsOf,
      List.dedup_cons_of_not_mem, s0, s1, s2] <;>
    decide

/-- C9 witness: the amended monotonicity at the example body data, from
sedentary to extra_active. -/
theorem c9_activity_monotone_witness :
    calculate_daily_calories
        ⟨some 70, some 175, some 30, some "male", some (activityOfIdx 0), none, none⟩ ≤
      calculate_daily_calories
        ⟨some 70, some 175, some 30, some "male", some (activityOfIdx 4), none, none⟩ :=
  c9_activity_monotone 70 175 30 "male" none none 0 4
    (by
      have hg : strLower "male" = "male" := by decide
      norm_num [mifflin_base, hg])
    (by decide)
